import Mathlib

/-!
Shallow embedding of the toaster sideband filter driver
(src/filter_sideband.c) and proofs about its device-tracking and
control-device lifecycle logic.

The embedding models the module's global mutable state
(FilterDeviceCollection, ControlDevice), translates each event callback
as a function from state to state, and additionally records, for each
callback, the sequence of lock operations and WDF calls it performs, so
that ordering and lock-scope properties can be stated.  Fallible WDF
calls are driven by explicit environment records saying which calls
succeed.
-/

/-- Status codes this module actually produces or tests. -/
inductive NtStatus where
  | STATUS_SUCCESS
  | STATUS_INSUFFICIENT_RESOURCES
  | STATUS_UNSUCCESSFUL
  deriving DecidableEq, Repr

/-- NT_SUCCESS macro: true exactly for success codes; of the codes this
module handles only STATUS_SUCCESS qualifies. -/
def NT_SUCCESS : NtStatus → Bool
  | NtStatus.STATUS_SUCCESS => true
  | _ => false

/-- One attached filter device object: a WDFDEVICE handle together with the
FILTER_EXTENSION context stored on it.  SerialNo is the UINumber obtained by
WdfFdoInitQueryProperty; it is modelled as none when that query failed (the
source then stores an indeterminate value that was never meaningfully set). -/
structure FilterDevice where
  handle : Nat
  serialNo : Option Nat
  deriving DecidableEq, Repr

/-- Global state of the module: the device collection
(FilterDeviceCollection, an ordered WDFCOLLECTION), the global control
device handle (ControlDevice, identified by a numeric stamp), and resource
accounting used to state rollback properties: the number of live
WDFDEVICE_INIT allocations, the stamps of live control device objects, a
fresh-stamp counter, and a counter of creation-protocol invocations (the
instrumentation the spec's Scenario 6 asks for). -/
structure SysState where
  FilterDeviceCollection : List FilterDevice
  ControlDevice : Option Nat
  liveInits : Nat
  liveControlObjects : List Nat
  nextStamp : Nat
  creations : Nat
  deriving DecidableEq, Repr

/-- State right after DriverEntry: empty collection, no control device,
nothing allocated. -/
def initState : SysState :=
  { FilterDeviceCollection := []
    ControlDevice := none
    liveInits := 0
    liveControlObjects := []
    nextStamp := 0
    creations := 0 }

/-- Observable actions of the callbacks: lock operations, the WDF calls of
the control-device creation protocol (with their success flag), collection
operations, and request handling.  Used to state ordering and lock-scope
properties. -/
inductive Act where
  | acquireLock
  | releaseLock
  | getCount (n : Nat)
  | queryProp (ok : Bool)
  | collectionAdd (ok : Bool)
  | collectionRemove
  | allocInit (ok : Bool)
  | setExclusive
  | assignName (ok : Bool)
  | createDevice (ok : Bool)
  | createSymLink (ok : Bool)
  | createQueue (ok : Bool)
  | finishInit
  | publishHandle
  | freeInit
  | deleteObject
  | deleteControlDevice
  | logSerial (t : Option Nat)
  | completeRequest (st : NtStatus) (info : Nat)
  deriving DecidableEq, Repr

/-- Which of the fallible WDF calls inside FilterCreateControlDevice
succeed in a given run. -/
structure CreateEnv where
  initAllocOk : Bool
  assignNameOk : Bool
  deviceCreateOk : Bool
  symLinkOk : Bool
  queueCreateOk : Bool
  deriving DecidableEq, Repr

/-- Environment with every creation step succeeding. -/
def allOkCreateEnv : CreateEnv :=
  { initAllocOk := true
    assignNameOk := true
    deviceCreateOk := true
    symLinkOk := true
    queueCreateOk := true }

/-- Result of FilterCreateControlDevice: the new global state, the returned
NTSTATUS, and the action trace. -/
structure CreateResult where
  state : SysState
  status : NtStatus
  trace : List Act
  deriving DecidableEq, Repr

/-- FilterCreateControlDevice (filter_sideband.c lines 335-517).  Under the
collection lock it reads the collection count; bCreate is set exactly when
the count is 1.  If bCreate is false it returns STATUS_SUCCESS at once.
Otherwise it runs the creation protocol: WdfControlDeviceInitAllocate,
WdfDeviceInitSetExclusive(FALSE), WdfDeviceInitAssignName, WdfDeviceCreate
(which consumes pInit on success), WdfDeviceCreateSymbolicLink,
WdfIoQueueCreate, WdfControlFinishInitializing, and only then the
assignment ControlDevice = controlDevice.  The Error label frees pInit when
it is still non-NULL and deletes the partially created control device
object (deleting the object also releases its symbolic link and queue,
which are parented to it). -/
def FilterCreateControlDevice (s : SysState) (env : CreateEnv) : CreateResult :=
  let n := s.FilterDeviceCollection.length
  let pre : List Act := [Act.acquireLock, Act.getCount n, Act.releaseLock]
  let bCreate := n == 1
  if !bCreate then
    { state := s, status := NtStatus.STATUS_SUCCESS, trace := pre }
  else
    let s0 := { s with creations := s.creations + 1 }
    if !env.initAllocOk then
      { state := s0
        status := NtStatus.STATUS_INSUFFICIENT_RESOURCES
        trace := pre ++ [Act.allocInit false] }
    else
      let s1 := { s0 with liveInits := s0.liveInits + 1 }
      if !env.assignNameOk then
        { state := { s1 with liveInits := s1.liveInits - 1 }
          status := NtStatus.STATUS_UNSUCCESSFUL
          trace := pre ++ [Act.allocInit true, Act.setExclusive,
                           Act.assignName false, Act.freeInit] }
      else if !env.deviceCreateOk then
        { state := { s1 with liveInits := s1.liveInits - 1 }
          status := NtStatus.STATUS_UNSUCCESSFUL
          trace := pre ++ [Act.allocInit true, Act.setExclusive,
                           Act.assignName true, Act.createDevice false,
                           Act.freeInit] }
      else
        let stamp := s1.nextStamp
        let s2 := { s1 with
                      liveInits := s1.liveInits - 1
                      liveControlObjects := s1.liveControlObjects ++ [stamp]
                      nextStamp := s1.nextStamp + 1 }
        if !env.symLinkOk then
          { state := { s2 with
                         liveControlObjects := s2.liveControlObjects.erase stamp }
            status := NtStatus.STATUS_UNSUCCESSFUL
            trace := pre ++ [Act.allocInit true, Act.setExclusive,
                             Act.assignName true, Act.createDevice true,
                             Act.createSymLink false, Act.deleteObject] }
        else if !env.queueCreateOk then
          { state := { s2 with
                         liveControlObjects := s2.liveControlObjects.erase stamp }
            status := NtStatus.STATUS_UNSUCCESSFUL
            trace := pre ++ [Act.allocInit true, Act.setExclusive,
                             Act.assignName true, Act.createDevice true,
                             Act.createSymLink true, Act.createQueue false,
                             Act.deleteObject] }
        else
          { state := { s2 with ControlDevice := some stamp }
            status := NtStatus.STATUS_SUCCESS
            trace := pre ++ [Act.allocInit true, Act.setExclusive,
                             Act.assignName true, Act.createDevice true,
                             Act.createSymLink true, Act.createQueue true,
                             Act.finishInit, Act.publishHandle] }

/-- FilterDeleteControlDevice (lines 519-550): if ControlDevice is set,
WdfObjectDelete it and clear the global; otherwise do nothing. -/
def FilterDeleteControlDevice (s : SysState) : SysState × List Act :=
  match s.ControlDevice with
  | some stamp =>
    ({ s with
         ControlDevice := none
         liveControlObjects := s.liveControlObjects.erase stamp },
     [Act.deleteObject])
  | none => (s, [])

/-- WdfCollectionRemove: removes the first (and in well-formed states only)
entry whose handle matches; no-op when the object is not in the
collection. -/
def wdfCollectionRemove (l : List FilterDevice) (h : Nat) : List FilterDevice :=
  match l with
  | [] => []
  | d :: ds => if d.handle == h then ds else d :: wdfCollectionRemove ds h

/-- Result of a cleanup callback: new state and action trace. -/
structure CleanupResult where
  state : SysState
  trace : List Act
  deriving DecidableEq, Repr

/-- FilterEvtDeviceContextCleanup (lines 279-330): under one acquisition of
FilterDeviceCollectionLock it reads the count, calls
FilterDeleteControlDevice when the count is exactly 1 (this device is the
last instance), and then removes the device from the collection. -/
def FilterEvtDeviceContextCleanup (s : SysState) (device : Nat) : CleanupResult :=
  let count := s.FilterDeviceCollection.length
  let isLast := count == 1
  let sd := if isLast then (FilterDeleteControlDevice s).1 else s
  { state := { sd with
                 FilterDeviceCollection :=
                   wdfCollectionRemove sd.FilterDeviceCollection device }
    trace := [Act.acquireLock, Act.getCount count] ++
             (if isLast then [Act.deleteControlDevice] else []) ++
             [Act.collectionRemove, Act.releaseLock] }

/-- Which of the fallible calls inside FilterEvtDeviceAdd succeed:
queryProperty is the serial number WdfFdoInitQueryProperty returns (none on
failure), deviceCreateOk drives WdfDeviceCreate for the filter device,
collectionAddOk drives WdfCollectionAdd, and createEnv drives the nested
FilterCreateControlDevice call. -/
structure AddEnv where
  queryProperty : Option Nat
  deviceCreateOk : Bool
  collectionAddOk : Bool
  createEnv : CreateEnv
  deriving DecidableEq, Repr

/-- Environment for FilterEvtDeviceAdd in which every fallible call
succeeds and the device reports the given serial number. -/
def allOkAddEnv (tag : Option Nat) : AddEnv :=
  { queryProperty := tag
    deviceCreateOk := true
    collectionAddOk := true
    createEnv := allOkCreateEnv }

/-- Result of FilterEvtDeviceAdd: new state, returned NTSTATUS, trace. -/
structure AddResult where
  state : SysState
  status : NtStatus
  trace : List Act
  deriving DecidableEq, Repr

/-- The WdfCollectionAdd section of FilterEvtDeviceAdd (lines 249-258): the
newly created device (with the serial number from WdfFdoInitQueryProperty,
unset on query failure) is appended to the collection under the lock; on
add failure the status is only logged and the device is left out of the
collection. -/
def addRegisterPhase (s : SysState) (handle : Nat) (env : AddEnv) : SysState :=
  if env.collectionAddOk then
    { s with
        FilterDeviceCollection :=
          s.FilterDeviceCollection ++ [{ handle := handle, serialNo := env.queryProperty }] }
  else s

/-- FilterEvtDeviceAdd (lines 155-275): query the UINumber (failure only
logged), create the filter device (failure returned to the caller), add it
to the collection under the lock (failure only logged; the status variable
is then overwritten by the next call), call FilterCreateControlDevice, and
downgrade a creation failure to STATUS_SUCCESS so that AddDevice never
fails because the control device could not be created. -/
def FilterEvtDeviceAdd (s : SysState) (handle : Nat) (env : AddEnv) : AddResult :=
  if !env.deviceCreateOk then
    { state := s
      status := NtStatus.STATUS_UNSUCCESSFUL
      trace := [Act.queryProp env.queryProperty.isSome, Act.createDevice false] }
  else
    let s1 := addRegisterPhase s handle env
    let cr := FilterCreateControlDevice s1 env.createEnv
    { state := cr.state
      status := if NT_SUCCESS cr.status then cr.status else NtStatus.STATUS_SUCCESS
      trace := [Act.queryProp env.queryProperty.isSome, Act.createDevice true,
                Act.acquireLock, Act.collectionAdd env.collectionAddOk,
                Act.releaseLock] ++ cr.trace }

/-- Result of the IOCTL handler: the sequence of serial numbers printed
while walking the collection, the completion status, the number of
response-information bytes, and the action trace. -/
structure DispatchResult where
  log : List (Option Nat)
  status : NtStatus
  info : Nat
  trace : List Act
  deriving DecidableEq, Repr

/-- FilterEvtIoDeviceControl (lines 556-622): under the collection lock it
walks the collection in index order and prints each device's serial
number, then releases the lock and completes the request with
STATUS_SUCCESS and zero bytes of information.  No output buffer is ever
retrieved or written. -/
def FilterEvtIoDeviceControl (s : SysState) : DispatchResult :=
  let noItems := s.FilterDeviceCollection.length
  let serials := s.FilterDeviceCollection.map (fun d => d.serialNo)
  { log := serials
    status := NtStatus.STATUS_SUCCESS
    info := 0
    trace := [Act.acquireLock, Act.getCount noItems] ++
             serials.map Act.logSerial ++
             [Act.releaseLock,
              Act.completeRequest NtStatus.STATUS_SUCCESS 0] }

/-- Does the collection currently hold a device with this handle? -/
def hasHandle (s : SysState) (h : Nat) : Bool :=
  s.FilterDeviceCollection.any (fun d => d.handle == h)

/-- Lifecycle events delivered by the PnP manager: a new instance appears
(reporting the given serial number, none when the property query fails) or
a previously attached instance disappears. -/
inductive Event where
  | appears (handle : Nat) (tag : Option Nat)
  | disappears (handle : Nat)
  deriving DecidableEq, Repr

/-- One sequentially delivered lifecycle event in which every fallible host
call succeeds.  Well-formedness follows the host guarantees: an appears
event carries a fresh handle, a disappears event targets a currently
attached handle; ill-formed events yield none. -/
def stepEvent (s : SysState) : Event → Option SysState
  | Event.appears h t =>
    if hasHandle s h then none
    else some (FilterEvtDeviceAdd s h (allOkAddEnv t)).state
  | Event.disappears h =>
    if hasHandle s h then some (FilterEvtDeviceContextCleanup s h).state
    else none

/-- Run a well-formed, all-calls-succeed lifecycle trace from a state. -/
def runFrom (s : SysState) : List Event → Option SysState
  | [] => some s
  | e :: es =>
    match stepEvent s e with
    | some s2 => runFrom s2 es
    | none => none

/-- Run a well-formed, all-calls-succeed lifecycle trace from the
post-DriverEntry state. -/
def run (es : List Event) : Option SysState := runFrom initState es

/-- States reachable by any sequence of well-formed lifecycle events, with
arbitrary success or failure of the fallible host calls. -/
inductive Reaches : SysState → Prop where
  | init : Reaches initState
  | appears (s : SysState) (h : Nat) (env : AddEnv) :
      Reaches s → hasHandle s h = false →
      Reaches (FilterEvtDeviceAdd s h env).state
  | disappears (s : SysState) (h : Nat) :
      Reaches s → hasHandle s h = true →
      Reaches (FilterEvtDeviceContextCleanup s h).state

/-- A trace predicate: every action satisfying p occurs strictly before
every action satisfying q (equivalently, no p-action occurs at or after
the first q-action). -/
def allBefore (p q : Act → Bool) (tr : List Act) : Bool :=
  !((tr.dropWhile (fun a => !q a)).any p)

/-!
Interleaving model for concurrent instance arrival.  Each in-flight
FilterEvtDeviceAdd thread is cut at the lock boundaries of the source:
pc 0 = about to run the WdfCollectionAdd section (lines 249-258, lock
held), pc 1 = about to run the count-check section of
FilterCreateControlDevice (lines 383-389, lock held; bCreate records
whether the count read was exactly 1), pc 2 = about to run the creation
protocol (lines 398-499, executed with the lock released) when bCreate
was set, pc 3 = done.  count abstracts the collection count, channel
whether ControlDevice is set, creations the number of creation-protocol
invocations (the counter the spec's Scenario 6 asks to observe).
-/


/-- Joint state of two concurrent FilterEvtDeviceAdd threads A and B. -/
structure MicroState where
  pcA : Fin 4
  pcB : Fin 4
  bA : Bool
  bB : Bool
  count : Nat
  channel : Bool
  creations : Nat
  deriving DecidableEq, Repr

/-- Both threads at their entry point, empty collection, no channel. -/
def microInit : MicroState :=
  { pcA := 0, pcB := 0, bA := false, bB := false
    count := 0, channel := false, creations := 0 }

/-- One atomic section of thread A: its WdfCollectionAdd, then its
count-check (bCreate := count == 1), then, if bCreate, the unlocked
creation protocol (counted, and setting the channel). -/
def microStepA (m : MicroState) : MicroState :=
  if m.pcA = 0 then { m with count := m.count + 1, pcA := 1 }
  else if m.pcA = 1 then { m with bA := m.count == 1, pcA := 2 }
  else if m.pcA = 2 then
    if m.bA then { m with creations := m.creations + 1, channel := true, pcA := 3 }
    else { m with pcA := 3 }
  else m

/-- One atomic section of thread B (same program as thread A). -/
def microStepB (m : MicroState) : MicroState :=
  if m.pcB = 0 then { m with count := m.count + 1, pcB := 1 }
  else if m.pcB = 1 then { m with bB := m.count == 1, pcB := 2 }
  else if m.pcB = 2 then
    if m.bB then { m with creations := m.creations + 1, channel := true, pcB := 3 }
    else { m with pcB := 3 }
  else m

/-- Run a schedule (true = thread A steps, false = thread B steps) from a
given joint state; scheduling a finished thread is a stutter. -/
def microRunFrom (m : MicroState) (sched : List Bool) : MicroState :=
  sched.foldl (fun m t => if t then microStepA m else microStepB m) m

/-- Run a schedule from the initial two-thread configuration. -/
def microRun (sched : List Bool) : MicroState := microRunFrom microInit sched

/-- Inductive invariant of the two-thread interleaving model: the count
equals the number of completed adds, a bCreate flag is only set past the
check, the two flags are never both set (the lock-serialized count checks
can observe a count of 1 at most once), and creations counts the threads
that finished with their flag set. -/
def MicroInv (m : MicroState) : Prop :=
  m.count = (if 1 ≤ m.pcA then 1 else 0) + (if 1 ≤ m.pcB then 1 else 0) ∧
  (m.bA = true → 2 ≤ m.pcA) ∧
  (m.bB = true → 2 ≤ m.pcB) ∧
  ¬(m.bA = true ∧ m.bB = true) ∧
  m.creations = (if m.pcA = 3 ∧ m.bA = true then 1 else 0) +
                (if m.pcB = 3 ∧ m.bB = true then 1 else 0)

instance (m : MicroState) : Decidable (MicroInv m) := by
  unfold MicroInv; infer_instance

lemma microStepA_inv (m : MicroState) (h : MicroInv m) : MicroInv (microStepA m) := by
  rcases m with ⟨pcA, pcB, bA, bB, count, channel, creations⟩
  rcases h with ⟨h1, h2, h3, h4, h5⟩
  dsimp only at h1 h2 h3 h4 h5
  subst h1; subst h5
  revert h2 h3 h4
  revert channel
  revert pcA pcB bA bB
  decide

lemma microStepB_inv (m : MicroState) (h : MicroInv m) : MicroInv (microStepB m) := by
  rcases m with ⟨pcA, pcB, bA, bB, count, channel, creations⟩
  rcases h with ⟨h1, h2, h3, h4, h5⟩
  dsimp only at h1 h2 h3 h4 h5
  subst h1; subst h5
  revert h2 h3 h4
  revert channel
  revert pcA pcB bA bB
  decide

lemma microRunFrom_inv (sched : List Bool) (m : MicroState) (h : MicroInv m) :
    MicroInv (microRunFrom m sched) := by
  induction sched generalizing m with
  | nil => exact h
  | cons t ts ih =>
    have hstep : MicroInv (if t then microStepA m else microStepB m) := by
      cases t
      · simpa using microStepB_inv m h
      · simpa using microStepA_inv m h
    simpa [microRunFrom, List.foldl_cons] using ih _ hstep

lemma microInit_inv : MicroInv microInit := by
  unfold MicroInv microInit; simp

/-- Channel-existence invariant: the control device exists exactly when the
collection is non-empty. -/
def ChannelInv (s : SysState) : Prop :=
  s.ControlDevice ≠ none ↔ s.FilterDeviceCollection ≠ []

lemma add_allOk_channelInv (s : SysState) (h : Nat) (t : Option Nat)
    (hs : ChannelInv s) :
    ChannelInv (FilterEvtDeviceAdd s h (allOkAddEnv t)).state := by
  rcases s with ⟨coll, cd, li, lco, ns, cr⟩
  cases coll with
  | nil =>
    simp [ChannelInv, FilterEvtDeviceAdd, allOkAddEnv, allOkCreateEnv,
          addRegisterPhase, FilterCreateControlDevice]
  | cons d ds =>
    have hcd : cd ≠ none := by
      simp only [ChannelInv] at hs
      simpa using hs.mpr (by simp)
    have hne : (((d :: ds) ++ [⟨h, t⟩] : List FilterDevice).length == 1) = false := by
      simp
    simp [ChannelInv, FilterEvtDeviceAdd, allOkAddEnv, allOkCreateEnv,
          addRegisterPhase, FilterCreateControlDevice, hne, hcd]

lemma wdfCollectionRemove_cons_cons_ne_nil (x y : FilterDevice) (l : List FilterDevice) (h : Nat) :
    wdfCollectionRemove (x :: y :: l) h ≠ [] := by
  simp only [wdfCollectionRemove]
  split_ifs <;> simp

lemma cleanup_channelInv (s : SysState) (h : Nat)
    (hs : ChannelInv s) (hh : hasHandle s h = true) :
    ChannelInv (FilterEvtDeviceContextCleanup s h).state := by
  rcases s with ⟨coll, cd, li, lco, ns, cr⟩
  cases coll with
  | nil => simp [hasHandle] at hh
  | cons d ds =>
    have hcd : cd ≠ none := by
      simp only [ChannelInv] at hs
      simpa using hs.mpr (by simp)
    cases ds with
    | nil =>
      obtain ⟨stamp, rfl⟩ : ∃ x, cd = some x := Option.ne_none_iff_exists'.mp hcd
      have hdh : (d.handle == h) = true := by simpa [hasHandle] using hh
      simp [ChannelInv, FilterEvtDeviceContextCleanup, FilterDeleteControlDevice,
            wdfCollectionRemove, hdh]
    | cons d2 ds2 =>
      have hne : ((d :: d2 :: ds2 : List FilterDevice).length == 1) = false := by simp
      simp [ChannelInv, FilterEvtDeviceContextCleanup, hne, hcd,
            wdfCollectionRemove_cons_cons_ne_nil]

lemma stepEvent_channelInv (s s2 : SysState) (e : Event)
    (hs : ChannelInv s) (hstep : stepEvent s e = some s2) : ChannelInv s2 := by
  cases e with
  | appears h t =>
    by_cases hh : hasHandle s h
    · simp [stepEvent, hh] at hstep
    · simp only [stepEvent, hh, Bool.false_eq_true, if_false, Option.some.injEq] at hstep
      exact hstep ▸ add_allOk_channelInv s h t hs
  | disappears h =>
    by_cases hh : hasHandle s h
    · simp only [stepEvent, hh, if_true, Option.some.injEq] at hstep
      exact hstep ▸ cleanup_channelInv s h hs hh
    · simp [stepEvent, hh] at hstep

lemma runFrom_channelInv (es : List Event) (s s2 : SysState)
    (hs : ChannelInv s) (hr : runFrom s es = some s2) : ChannelInv s2 := by
  induction es generalizing s with
  | nil =>
    simp only [runFrom, Option.some.injEq] at hr
    exact hr ▸ hs
  | cons e es ih =>
    cases hst : stepEvent s e with
    | none => simp [runFrom, hst] at hr
    | some smid =>
      simp only [runFrom, hst] at hr
      exact ih smid (stepEvent_channelInv s smid e hs hst) hr

/-- Environment for an instance arrival in which the symbolic-link step of
the creation protocol fails and every other host call succeeds. -/
def c1FailEnv : AddEnv :=
  { queryProperty := some 10
    deviceCreateOk := true
    collectionAddOk := true
    createEnv := { allOkCreateEnv with symLinkOk := false } }

/-- State after the first instance arrives and the creation protocol fails
at the symbolic-link step: the instance is registered, the channel absent. -/
def c1FailState : SysState := (FilterEvtDeviceAdd initState 0 c1FailEnv).state

/-- Claim C1, counterexample: a reachable state (first instance arrives,
creation protocol fails at the symbolic-link step) has a non-empty
registry and no channel, so the claimed invariant does not hold of every
reachable state. -/
theorem reachable_registry_nonempty_without_channel :
    Reaches c1FailState ∧
    c1FailState.FilterDeviceCollection ≠ [] ∧
    c1FailState.ControlDevice = none :=
  ⟨Reaches.appears initState 0 c1FailEnv Reaches.init (by decide),
   by decide, by decide⟩

/-- Claim C1 (amended): on well-formed lifecycle traces in which every
fallible host call succeeds, every inter-event state satisfies the
invariant: the control device exists iff the device collection is
non-empty.  As literally stated the claim fails, since a failed creation
step leaves a reachable state with a registered instance and no channel. -/
theorem run_channel_iff_registry_nonempty (es : List Event) (s : SysState)
    (hr : run es = some s) :
    s.ControlDevice ≠ none ↔ s.FilterDeviceCollection ≠ [] :=
  runFrom_channelInv es initState s (by simp [ChannelInv, initState]) hr

/-- Witness for the amended C1 theorem at the one-event trace in which
instance 0 (serial 10) arrives. -/
theorem run_channel_iff_registry_nonempty_w :
    ({ FilterDeviceCollection := [{ handle := 0, serialNo := some 10 }]
       ControlDevice := some 0
       liveInits := 0
       liveControlObjects := [0]
       nextStamp := 1
       creations := 1 } : SysState).ControlDevice ≠ none ↔
    ({ FilterDeviceCollection := [{ handle := 0, serialNo := some 10 }]
       ControlDevice := some 0
       liveInits := 0
       liveControlObjects := [0]
       nextStamp := 1
       creations := 1 } : SysState).FilterDeviceCollection ≠ [] :=
  run_channel_iff_registry_nonempty [Event.appears 0 (some 10)] _ (by decide)

/-- Claim C2, counterexample: in the interleaving where both
WdfCollectionAdd sections run before either count-check section, both
checks read a count of 2, neither thread enters the creation protocol,
and no control device is ever created — the count of creation-protocol
invocations is 0, not 1. -/
theorem concurrent_creation_can_run_zero_times :
    microRun [true, false, true, true, false, false] =
      { pcA := 3, pcB := 3, bA := false, bB := false
        count := 2, channel := false, creations := 0 } ∧
    (microRun [true, false, true, true, false, false]).creations ≠ 1 := by
  exact ⟨by decide, by decide⟩

/-- Claim C2 (amended): the lock-serialized count checks do make the
creation protocol run at most once when two instances appear concurrently
from a count of zero (it can never run twice), but not exactly once:
there are interleavings in which it runs zero times. -/
theorem concurrent_creation_at_most_once (sched : List Bool) :
    (microRun sched).creations ≤ 1 := by
  have h := microRunFrom_inv sched microInit microInit_inv
  rcases h with ⟨-, -, -, h4, h5⟩
  have : microRun sched = microRunFrom microInit sched := rfl
  rw [this, h5]
  split_ifs with hA hB hB
  · exact absurd ⟨hA.2, hB.2⟩ h4
  all_goals omega

/-- Recognizer for count-read actions. -/
def isGetCount : Act → Bool
  | Act.getCount _ => true
  | _ => false

/-- Recognizer for serial-number log actions. -/
def isLogSerial : Act → Bool
  | Act.logSerial _ => true
  | _ => false

lemma dropWhile_append_of_all (p : Act → Bool) (l1 l2 : List Act)
    (h : ∀ a ∈ l1, p a = true) :
    List.dropWhile p (l1 ++ l2) = List.dropWhile p l2 := by
  induction l1 with
  | nil => rfl
  | cons x xs ih =>
    simp only [List.cons_append, List.dropWhile_cons]
    rw [h x (by simp)]
    exact ih (fun a ha => h a (by simp [ha]))

lemma allBefore_append_left (p q : Act → Bool) (l1 l2 : List Act)
    (h : ∀ a ∈ l1, q a = false) :
    allBefore p q (l1 ++ l2) = allBefore p q l2 := by
  unfold allBefore
  rw [dropWhile_append_of_all]
  intro a ha
  simp [h a ha]

lemma any_map_logSerial_false (p : Act → Bool) (l : List (Option Nat))
    (hp : ∀ t, p (Act.logSerial t) = false) :
    (l.map Act.logSerial).any p = false := by
  induction l with
  | nil => rfl
  | cons t ts ih => simp [hp, ih]

-- C3 -------------------------------------------------------------------

/-- Claim C3: on an instance-disappears event, the whole cleanup runs
under one single acquisition of the collection lock (the trace starts
with the acquire, ends with the release, and contains exactly one of
each), the count check precedes the control-device destruction, and the
destruction (when it happens) precedes the removal of the triggering
device from the collection. -/
theorem cleanup_destroy_before_remove_single_lock (s : SysState) (d : Nat) :
    (FilterEvtDeviceContextCleanup s d).trace.head? = some Act.acquireLock ∧
    (FilterEvtDeviceContextCleanup s d).trace.getLast? = some Act.releaseLock ∧
    (FilterEvtDeviceContextCleanup s d).trace.count Act.acquireLock = 1 ∧
    (FilterEvtDeviceContextCleanup s d).trace.count Act.releaseLock = 1 ∧
    allBefore isGetCount (fun a => a == Act.deleteControlDevice)
      (FilterEvtDeviceContextCleanup s d).trace = true ∧
    allBefore (fun a => a == Act.deleteControlDevice) (fun a => a == Act.collectionRemove)
      (FilterEvtDeviceContextCleanup s d).trace = true := by
  unfold FilterEvtDeviceContextCleanup
  cases hl : s.FilterDeviceCollection.length == 1 <;>
    simp only [hl, if_true, if_false] <;>
    exact ⟨rfl, rfl, rfl, rfl, rfl, rfl⟩

-- helpers for the FilterEvtDeviceAdd claims ---------------------------

/-- FilterCreateControlDevice never modifies the device collection. -/
lemma create_collection_eq (s : SysState) (env : CreateEnv) :
    (FilterCreateControlDevice s env).state.FilterDeviceCollection =
      s.FilterDeviceCollection := by
  simp only [FilterCreateControlDevice]
  split_ifs <;> rfl

/-- Whenever the filter device object itself is created, FilterEvtDeviceAdd
returns STATUS_SUCCESS: the property-query and collection-add failures are
only logged, and a FilterCreateControlDevice failure is explicitly
downgraded to STATUS_SUCCESS. -/
lemma add_status_success (s : SysState) (handle : Nat) (env : AddEnv)
    (hdc : env.deviceCreateOk = true) :
    (FilterEvtDeviceAdd s handle env).status = NtStatus.STATUS_SUCCESS := by
  unfold FilterEvtDeviceAdd
  simp only [hdc, Bool.not_true, Bool.false_eq_true, if_false]
  cases hst : (FilterCreateControlDevice (addRegisterPhase s handle env) env.createEnv).status <;>
    simp [hst, NT_SUCCESS]

-- C4 -------------------------------------------------------------------

/-- Claim C4: for an instance-appears event on which the filter device
itself is created, a failure of the shared-channel creation call is
downgraded and FilterEvtDeviceAdd still returns STATUS_SUCCESS. -/
theorem create_failure_never_fails_attachment (s : SysState) (handle : Nat)
    (env : AddEnv) (hdc : env.deviceCreateOk = true)
    (hcf : NT_SUCCESS (FilterCreateControlDevice (addRegisterPhase s handle env)
             env.createEnv).status = false) :
    (FilterEvtDeviceAdd s handle env).status = NtStatus.STATUS_SUCCESS := by
  unfold FilterEvtDeviceAdd
  simp [hdc, hcf]

/-- Environment for the C4 witness: all host calls succeed except the
symbolic-link step of the creation protocol. -/
def c4Env : AddEnv :=
  { queryProperty := some 10
    deviceCreateOk := true
    collectionAddOk := true
    createEnv := { allOkCreateEnv with symLinkOk := false } }

/-- Witness for C4 at a concrete input: first instance arrives, creation
fails at the symbolic-link step, attachment still succeeds. -/
theorem create_failure_never_fails_attachment_w :
    (FilterEvtDeviceAdd initState 0 c4Env).status = NtStatus.STATUS_SUCCESS :=
  create_failure_never_fails_attachment initState 0 c4Env (by decide) (by decide)

-- C5 -------------------------------------------------------------------

/-- Environment for the C5 counterexample: the collection add fails,
everything else succeeds. -/
def c5Env : AddEnv :=
  { queryProperty := some 10
    deviceCreateOk := true
    collectionAddOk := false
    createEnv := allOkCreateEnv }

/-- Claim C5, counterexample: when WdfCollectionAdd fails for the first
instance, FilterEvtDeviceAdd still returns STATUS_SUCCESS (the failed
status is overwritten by the FilterCreateControlDevice call) and the
instance is left untracked — the claim says this failure is surfaced as
an attachment failure. -/
theorem registry_growth_failure_not_surfaced_cex :
    c5Env.collectionAddOk = false ∧
    (FilterEvtDeviceAdd initState 0 c5Env).status = NtStatus.STATUS_SUCCESS ∧
    (FilterEvtDeviceAdd initState 0 c5Env).state.FilterDeviceCollection = [] :=
  ⟨rfl, by decide, by decide⟩

/-- Claim C5 (amended): registry growth failure is NOT surfaced: whenever
the filter device object is created, a WdfCollectionAdd failure is only
logged, its status is overwritten by the FilterCreateControlDevice call,
FilterEvtDeviceAdd returns STATUS_SUCCESS, and the instance is left out of
the collection.  Only WdfDeviceCreate failure is surfaced to the caller. -/
theorem registry_growth_failure_not_surfaced (s : SysState) (handle : Nat)
    (env : AddEnv) (hdc : env.deviceCreateOk = true)
    (hca : env.collectionAddOk = false) :
    (FilterEvtDeviceAdd s handle env).status = NtStatus.STATUS_SUCCESS ∧
    (FilterEvtDeviceAdd s handle env).state.FilterDeviceCollection =
      s.FilterDeviceCollection := by
  refine ⟨add_status_success s handle env hdc, ?_⟩
  unfold FilterEvtDeviceAdd
  simp only [hdc, Bool.not_true, Bool.false_eq_true, if_false]
  rw [create_collection_eq]
  simp [addRegisterPhase, hca]

/-- Witness for the amended C5 theorem at a concrete input. -/
theorem registry_growth_failure_not_surfaced_w :
    (FilterEvtDeviceAdd initState 0 c5Env).status = NtStatus.STATUS_SUCCESS ∧
    (FilterEvtDeviceAdd initState 0 c5Env).state.FilterDeviceCollection =
      initState.FilterDeviceCollection :=
  registry_growth_failure_not_surfaced initState 0 c5Env (by decide) (by decide)

-- C9 -------------------------------------------------------------------

/-- Claim C9: failure to obtain the serial number is non-fatal: the
instance record is still created and registered with an unset serial
number, and the attachment completes with STATUS_SUCCESS. -/
theorem identification_failure_not_fatal (s : SysState) (handle : Nat)
    (env : AddEnv) (hq : env.queryProperty = none)
    (hdc : env.deviceCreateOk = true) (hca : env.collectionAddOk = true) :
    (FilterEvtDeviceAdd s handle env).state.FilterDeviceCollection =
      s.FilterDeviceCollection ++ [{ handle := handle, serialNo := none }] ∧
    (FilterEvtDeviceAdd s handle env).status = NtStatus.STATUS_SUCCESS := by
  refine ⟨?_, add_status_success s handle env hdc⟩
  unfold FilterEvtDeviceAdd
  simp only [hdc, Bool.not_true, Bool.false_eq_true, if_false]
  rw [create_collection_eq]
  simp [addRegisterPhase, hca, hq]

/-- Environment for the C9 witness: the property query fails, everything
else succeeds. -/
def c9Env : AddEnv :=
  { queryProperty := none
    deviceCreateOk := true
    collectionAddOk := true
    createEnv := allOkCreateEnv }

/-- Witness for C9 at a concrete input. -/
theorem identification_failure_not_fatal_w :
    (FilterEvtDeviceAdd initState 7 c9Env).state.FilterDeviceCollection =
      initState.FilterDeviceCollection ++ [{ handle := 7, serialNo := none }] ∧
    (FilterEvtDeviceAdd initState 7 c9Env).status = NtStatus.STATUS_SUCCESS :=
  identification_failure_not_fatal initState 7 c9Env (by decide) (by decide) (by decide)

-- C7 -------------------------------------------------------------------

/-- State for the C7 counterexample: the ordinary reachable state after the
first instance (serial 10) arrives — one registered device, channel
present. -/
def c7CexState : SysState := (FilterEvtDeviceAdd initState 0 (allOkAddEnv (some 10))).state

/-- Environment for the C7 counterexample's second arrival: the collection
add fails, every other host call succeeds. -/
def c7CexAddEnv : AddEnv :=
  { queryProperty := some 20
    deviceCreateOk := true
    collectionAddOk := false
    createEnv := allOkCreateEnv }

/-- State after a second instance arrives at c7CexState and its
WdfCollectionAdd fails: the count stays 1, so the module itself calls
FilterCreateControlDevice with the channel already present and re-runs
the creation protocol. -/
def c7CexState2 : SysState := (FilterEvtDeviceAdd c7CexState 1 c7CexAddEnv).state

/-- Claim C7, counterexample: FilterCreateControlDevice guards on the
collection count, not on channel existence.  At the reachable state after
the first instance arrives (one registered device, channel present), a
call is never a no-op: the count==1 guard re-runs the whole creation
protocol, overwriting the published handle — and when a creation step
fails it does not even return success.  The module itself makes such a
call: when a second instance's WdfCollectionAdd fails, the count stays 1
and the arrival re-runs the protocol (creation counter 2, handle
replaced). -/
theorem ensure_created_not_noop_when_count_one_cex :
    Reaches c7CexState ∧
    c7CexState.ControlDevice = some 0 ∧
    c7CexState.FilterDeviceCollection.length = 1 ∧
    (FilterCreateControlDevice c7CexState allOkCreateEnv).state ≠ c7CexState ∧
    (FilterCreateControlDevice c7CexState allOkCreateEnv).state.ControlDevice = some 1 ∧
    (FilterCreateControlDevice c7CexState
        { allOkCreateEnv with initAllocOk := false }).status ≠ NtStatus.STATUS_SUCCESS ∧
    Reaches c7CexState2 ∧
    c7CexState2.creations = 2 ∧
    c7CexState2.ControlDevice = some 1 :=
  ⟨Reaches.appears initState 0 (allOkAddEnv (some 10)) Reaches.init (by decide),
   by decide, by decide, by decide, by decide, by decide,
   Reaches.appears c7CexState 1 c7CexAddEnv
     (Reaches.appears initState 0 (allOkAddEnv (some 10)) Reaches.init (by decide))
     (by decide),
   by decide, by decide⟩

/-- Claim C7 (amended): FilterDeleteControlDevice with the control device
already absent is a no-op, and FilterCreateControlDevice with the control
device already present is a no-op returning STATUS_SUCCESS whenever at
least two devices are registered.  The count restriction is necessary:
the code guards on the collection count, not on channel existence, and
with the channel present and exactly one registered device — reachable
when a later instance's WdfCollectionAdd fails — the guard fires and the
creation protocol re-runs, overwriting the handle (see the
counterexample). -/
theorem ensure_created_destroyed_idempotent :
    (∀ (s : SysState) (env : CreateEnv),
       s.ControlDevice ≠ none → 2 ≤ s.FilterDeviceCollection.length →
       (FilterCreateControlDevice s env).state = s ∧
       (FilterCreateControlDevice s env).status = NtStatus.STATUS_SUCCESS) ∧
    (∀ s : SysState, s.ControlDevice = none →
       FilterDeleteControlDevice s = (s, [])) := by
  constructor
  · intro s env _hcd hlen
    have hne : (s.FilterDeviceCollection.length == 1) = false := by
      simp only [beq_eq_false_iff_ne, ne_eq]
      omega
    simp only [FilterCreateControlDevice, hne]
    exact ⟨rfl, rfl⟩
  · intro s hcd
    unfold FilterDeleteControlDevice
    rw [hcd]

/-- State for the C7 witness: two registered instances and the control
device present. -/
def c7State : SysState :=
  { FilterDeviceCollection := [{ handle := 0, serialNo := some 10 },
                               { handle := 1, serialNo := some 20 }]
    ControlDevice := some 0
    liveInits := 0
    liveControlObjects := [0]
    nextStamp := 1
    creations := 1 }

/-- Witness for the amended C7 theorem at concrete inputs. -/
theorem ensure_created_destroyed_idempotent_w :
    ((FilterCreateControlDevice c7State allOkCreateEnv).state = c7State ∧
     (FilterCreateControlDevice c7State allOkCreateEnv).status = NtStatus.STATUS_SUCCESS) ∧
    FilterDeleteControlDevice initState = (initState, []) :=
  ⟨ensure_created_destroyed_idempotent.1 c7State allOkCreateEnv (by decide) (by decide),
   ensure_created_destroyed_idempotent.2 initState (by decide)⟩

-- C8 -------------------------------------------------------------------

/-- Claim C8: if any creation step fails, the error path releases
everything the completed steps allocated — the initialization context is
freed (or was already consumed), the partially created control device
object is deleted — and the global handle is left as it was.  The
freshness hypothesis states that the stamps of live control device
objects are below the fresh-stamp counter, which holds of every state the
model can produce. -/
theorem create_failure_rolls_back (s : SysState) (env : CreateEnv)
    (hfresh : ∀ x ∈ s.liveControlObjects, x < s.nextStamp)
    (hfail : (FilterCreateControlDevice s env).status ≠ NtStatus.STATUS_SUCCESS) :
    (FilterCreateControlDevice s env).state.liveInits = s.liveInits ∧
    (FilterCreateControlDevice s env).state.liveControlObjects = s.liveControlObjects ∧
    (FilterCreateControlDevice s env).state.ControlDevice = s.ControlDevice := by
  have hnotmem : s.nextStamp ∉ s.liveControlObjects := fun hmem =>
    absurd (hfresh _ hmem) (lt_irrefl _)
  have herase : (s.liveControlObjects ++ [s.nextStamp]).erase s.nextStamp =
      s.liveControlObjects := by
    rw [List.erase_append_right _ hnotmem, List.erase_cons_head, List.append_nil]
  simp only [FilterCreateControlDevice] at hfail ⊢
  split_ifs at hfail ⊢ <;>
    first
      | exact absurd rfl hfail
      | exact ⟨rfl, rfl, rfl⟩
      | exact ⟨Nat.add_sub_cancel .., rfl, rfl⟩
      | exact ⟨Nat.add_sub_cancel .., herase, rfl⟩

/-- State for the C8 witness: one registered instance, channel absent. -/
def c8State : SysState :=
  { FilterDeviceCollection := [{ handle := 0, serialNo := some 10 }]
    ControlDevice := none
    liveInits := 0
    liveControlObjects := []
    nextStamp := 0
    creations := 0 }

/-- Environment for the C8 witness: the queue-creation step fails. -/
def c8Env : CreateEnv := { allOkCreateEnv with queueCreateOk := false }

/-- Witness for C8 at a concrete input. -/
theorem create_failure_rolls_back_w :
    (FilterCreateControlDevice c8State c8Env).state.liveInits = c8State.liveInits ∧
    (FilterCreateControlDevice c8State c8Env).state.liveControlObjects =
      c8State.liveControlObjects ∧
    (FilterCreateControlDevice c8State c8Env).state.ControlDevice =
      c8State.ControlDevice :=
  create_failure_rolls_back c8State c8Env (by decide) (by decide)

-- C10 ------------------------------------------------------------------

/-- Claim C10: the global ControlDevice handle is published only after
every creation step has completed successfully.  If the trace has no
publish action the handle is unchanged (in particular on every error
path); if it does, the call returned STATUS_SUCCESS and every one of the
creation steps — allocation, naming, device creation, symbolic link,
queue creation and WdfControlFinishInitializing — succeeded and occurred
strictly before the publish. -/
theorem handle_published_only_fully_initialized (s : SysState) (env : CreateEnv) :
    (Act.publishHandle ∉ (FilterCreateControlDevice s env).trace →
       (FilterCreateControlDevice s env).state.ControlDevice = s.ControlDevice) ∧
    (Act.publishHandle ∈ (FilterCreateControlDevice s env).trace →
       (FilterCreateControlDevice s env).status = NtStatus.STATUS_SUCCESS ∧
       Act.finishInit ∈ (FilterCreateControlDevice s env).trace ∧
       allBefore (fun a => a == Act.finishInit) (fun a => a == Act.publishHandle)
         (FilterCreateControlDevice s env).trace = true ∧
       allBefore (fun a => a == Act.allocInit true) (fun a => a == Act.publishHandle)
         (FilterCreateControlDevice s env).trace = true ∧
       allBefore (fun a => a == Act.assignName true) (fun a => a == Act.publishHandle)
         (FilterCreateControlDevice s env).trace = true ∧
       allBefore (fun a => a == Act.createDevice true) (fun a => a == Act.publishHandle)
         (FilterCreateControlDevice s env).trace = true ∧
       allBefore (fun a => a == Act.createSymLink true) (fun a => a == Act.publishHandle)
         (FilterCreateControlDevice s env).trace = true ∧
       allBefore (fun a => a == Act.createQueue true) (fun a => a == Act.publishHandle)
         (FilterCreateControlDevice s env).trace = true) := by
  simp only [FilterCreateControlDevice]
  split_ifs <;>
    refine ⟨fun hmem => ?_, fun hmem => ?_⟩ <;>
      first
        | rfl
        | (simp at hmem; done)
        | exact absurd (by simp : Act.publishHandle ∈ _) hmem
        | exact ⟨rfl, by simp, rfl, rfl, rfl, rfl, rfl, rfl⟩

/-- State for the C10 witness: one registered instance, channel absent. -/
def c10State : SysState :=
  { FilterDeviceCollection := [{ handle := 3, serialNo := some 30 }]
    ControlDevice := none
    liveInits := 0
    liveControlObjects := []
    nextStamp := 0
    creations := 0 }

/-- Witness for C10 at a concrete input: the all-success run publishes the
handle, with every step before the publish. -/
theorem handle_published_only_fully_initialized_w :
    (FilterCreateControlDevice c10State allOkCreateEnv).status = NtStatus.STATUS_SUCCESS ∧
    Act.finishInit ∈ (FilterCreateControlDevice c10State allOkCreateEnv).trace ∧
    allBefore (fun a => a == Act.finishInit) (fun a => a == Act.publishHandle)
      (FilterCreateControlDevice c10State allOkCreateEnv).trace = true ∧
    allBefore (fun a => a == Act.allocInit true) (fun a => a == Act.publishHandle)
      (FilterCreateControlDevice c10State allOkCreateEnv).trace = true ∧
    allBefore (fun a => a == Act.assignName true) (fun a => a == Act.publishHandle)
      (FilterCreateControlDevice c10State allOkCreateEnv).trace = true ∧
    allBefore (fun a => a == Act.createDevice true) (fun a => a == Act.publishHandle)
      (FilterCreateControlDevice c10State allOkCreateEnv).trace = true ∧
    allBefore (fun a => a == Act.createSymLink true) (fun a => a == Act.publishHandle)
      (FilterCreateControlDevice c10State allOkCreateEnv).trace = true ∧
    allBefore (fun a => a == Act.createQueue true) (fun a => a == Act.publishHandle)
      (FilterCreateControlDevice c10State allOkCreateEnv).trace = true :=
  (handle_published_only_fully_initialized c10State allOkCreateEnv).2 (by decide)

-- C6 -------------------------------------------------------------------

/-- State for the C6 counterexample: one registered instance with serial
number 10 and the control device present. -/
def c6State : SysState :=
  { FilterDeviceCollection := [{ handle := 0, serialNo := some 10 }]
    ControlDevice := some 0
    liveInits := 0
    liveControlObjects := [0]
    nextStamp := 1
    creations := 1 }

/-- Claim C6, counterexample: with one registered instance the handler
completes the request with zero bytes of information and never writes an
output buffer, so the response payload is empty rather than an ordered
sequence holding the identifying tag of each registered instance; the
serial numbers go only to the kernel debug log. -/
theorem ioctl_response_payload_empty_cex :
    c6State.FilterDeviceCollection.map (fun d => d.serialNo) = [some 10] ∧
    (FilterEvtIoDeviceControl c6State).info = 0 ∧
    (FilterEvtIoDeviceControl c6State).log = [some 10] :=
  ⟨rfl, rfl, rfl⟩

/-- Claim C6 (amended): the handler acquires the collection lock,
enumerates every currently registered instance in registration order
(emitting each serial number to the debug log), releases the lock, and
completes the request with STATUS_SUCCESS — but with an empty response
payload (zero information bytes); the tags appear only in the debug log.
The trace facts say: it starts with the acquire, the acquire precedes
every log action, every log action precedes the release, the release
precedes the completion, which is the last action, and the lock is
acquired exactly once. -/
theorem ioctl_enumerates_all_under_lock (s : SysState) :
    (FilterEvtIoDeviceControl s).log =
      s.FilterDeviceCollection.map (fun d => d.serialNo) ∧
    (FilterEvtIoDeviceControl s).status = NtStatus.STATUS_SUCCESS ∧
    (FilterEvtIoDeviceControl s).info = 0 ∧
    (FilterEvtIoDeviceControl s).trace.head? = some Act.acquireLock ∧
    (FilterEvtIoDeviceControl s).trace.getLast? =
      some (Act.completeRequest NtStatus.STATUS_SUCCESS 0) ∧
    (FilterEvtIoDeviceControl s).trace.count Act.acquireLock = 1 ∧
    (FilterEvtIoDeviceControl s).trace.count Act.releaseLock = 1 ∧
    allBefore (fun a => a == Act.acquireLock) isLogSerial
      (FilterEvtIoDeviceControl s).trace = true ∧
    allBefore isLogSerial (fun a => a == Act.releaseLock)
      (FilterEvtIoDeviceControl s).trace = true ∧
    allBefore (fun a => a == Act.releaseLock)
      (fun a => a == Act.completeRequest NtStatus.STATUS_SUCCESS 0)
      (FilterEvtIoDeviceControl s).trace = true := by
  refine ⟨rfl, rfl, rfl, rfl, ?_, ?_, ?_, ?_, ?_, ?_⟩
  · -- getLast? is the completion
    simp only [FilterEvtIoDeviceControl]
    rw [List.getLast?_append]
    rfl
  · -- exactly one acquire
    simp only [FilterEvtIoDeviceControl]
    rw [List.count_append, List.count_append]
    have h0 : (List.map Act.logSerial
        (s.FilterDeviceCollection.map (fun d => d.serialNo))).count Act.acquireLock = 0 := by
      rw [List.count_eq_zero]
      simp
    rw [h0]
    rfl
  · -- exactly one release
    simp only [FilterEvtIoDeviceControl]
    rw [List.count_append, List.count_append]
    have h0 : (List.map Act.logSerial
        (s.FilterDeviceCollection.map (fun d => d.serialNo))).count Act.releaseLock = 0 := by
      rw [List.count_eq_zero]
      simp
    rw [h0]
    rfl
  · -- the acquire precedes every log action
    simp only [FilterEvtIoDeviceControl]
    rw [List.append_assoc]
    rw [allBefore_append_left _ _ _ _ ?sideA]
    case sideA =>
      intro a ha
      simp only [List.mem_cons, List.mem_singleton, List.not_mem_nil] at ha
      rcases ha with rfl | rfl | hfalse
      · rfl
      · rfl
      · exact absurd hfalse (by simp)
    cases hcoll : s.FilterDeviceCollection.map (fun d => d.serialNo) with
    | nil => rfl
    | cons t ts =>
      simp only [List.map_cons, List.cons_append]
      unfold allBefore
      rw [List.dropWhile_cons]
      simp only [isLogSerial, Bool.not_true, Bool.false_eq_true, if_false]
      rw [List.any_cons, List.any_append,
          any_map_logSerial_false (fun a => a == Act.acquireLock) ts (fun _ => rfl)]
      rfl
  · -- every log action precedes the release
    simp only [FilterEvtIoDeviceControl]
    rw [show (Act.releaseLock :: [Act.completeRequest NtStatus.STATUS_SUCCESS 0] : List Act) =
          [Act.releaseLock] ++ [Act.completeRequest NtStatus.STATUS_SUCCESS 0] from rfl]
    rw [allBefore_append_left _ _ _ _ ?sideB]
    case sideB =>
      intro a ha
      rw [beq_eq_false_iff_ne]
      intro heq
      subst heq
      simp at ha
    rfl
  · -- the release precedes the completion
    simp only [FilterEvtIoDeviceControl]
    rw [show (Act.releaseLock :: [Act.completeRequest NtStatus.STATUS_SUCCESS 0] : List Act) =
          [Act.releaseLock] ++ [Act.completeRequest NtStatus.STATUS_SUCCESS 0] from rfl]
    rw [← List.append_assoc]
    rw [allBefore_append_left _ _ _ _ ?sideC]
    case sideC =>
      intro a ha
      rw [beq_eq_false_iff_ne]
      intro heq
      subst heq
      simp at ha
    rfl
